import Mathlib

/-!
Verification development for the BT.656 video capture/decoder pipeline
(`bt656_decoder.cpp` / `bt656_interface.cpp`).

The C code is shallowly embedded: C structs become Lean structures, C
functions that mutate a struct through a pointer become Lean functions
returning the updated structure, machine integers (`uint8_t`, `uint16_t`,
`uint32_t`) are `Nat` with an explicit `% 2^w` wherever the C code can
overflow (counter increments), and the four raw function-pointer
callbacks of the decoder are modelled by four Boolean "registered" flags
together with an explicit list of emitted events (a callback invocation
in C corresponds to one event in the list, emitted only when the
corresponding flag is set, exactly as the C null checks do).

`micros()` (the timestamp stored into `last_frame_time`) is passed in as
an explicit `now : Nat` parameter.  Hardware GPIO reads in the capture
ISR / polling path are modelled by passing the sampled byte (and for the
polling path the sampled clock level and the previous level held in the
C `static` variable) as explicit arguments.
-/

-- ===========================================================================
-- Data model (bt656_decoder.h / bt656_interface.h)
-- ===========================================================================

/-- `bt656_state_t` from bt656_decoder.h. -/
inductive bt656_state_t where
  | idle
  | ff
  | ff00
  | ff0000
  | control_byte
  | active_video
deriving DecidableEq, Repr

/-- `bt656_data_phase_t` from bt656_decoder.h. -/
inductive bt656_data_phase_t where
  | y1
  | cb
  | y2
  | cr
deriving DecidableEq, Repr

/-- `bt656_sync_t` from bt656_decoder.h. -/
structure bt656_sync_t where
  field : Bool
  vsync : Bool
  hsync : Bool
  sav : Bool
  eav : Bool
deriving DecidableEq, Repr

/-- `bt656_ycbcr_t`: three `uint8_t` components. -/
structure bt656_ycbcr_t where
  y : Nat
  cb : Nat
  cr : Nat
deriving DecidableEq, Repr

/-- `bt656_rgb_t`: three `uint8_t` components. -/
structure bt656_rgb_t where
  r : Nat
  g : Nat
  b : Nat
deriving DecidableEq, Repr

/-- `bt656_stats_t`: the decoder statistics counters (`uint32_t` fields,
plus the `uint64_t` timestamp). -/
structure bt656_stats_t where
  frames_received : Nat
  lines_received : Nat
  pixels_received : Nat
  timing_errors : Nat
  sync_errors : Nat
  data_errors : Nat
  last_frame_time : Nat
deriving DecidableEq, Repr

/-- `bt656_config_t` from bt656_decoder.h. -/
structure bt656_config_t where
  expected_width : Nat
  expected_height : Nat
  enable_rgb_conversion : Bool
  enable_frame_buffer : Bool
  output_format : Nat
deriving DecidableEq, Repr

/-- `bt656_decoder_t`.  The four function-pointer callbacks are modelled
by Boolean "registered" flags (`pixel_cb`, `rgb_cb`, `frame_cb`,
`line_cb`); invocations are reported as events (see `bt656_event`). -/
structure bt656_decoder_t where
  state : bt656_state_t
  phase : bt656_data_phase_t
  sync : bt656_sync_t
  current_pixel : bt656_ycbcr_t
  current_rgb : bt656_rgb_t
  line_count : Nat
  pixel_count : Nat
  frame_width : Nat
  frame_height : Nat
  in_active_video : Bool
  frame_started : Bool
  line_started : Bool
  stats : bt656_stats_t
  config : bt656_config_t
  pixel_cb : Bool
  rgb_cb : Bool
  frame_cb : Bool
  line_cb : Bool
deriving DecidableEq, Repr

/-- One callback invocation performed by the decoder: which callback
fired, and with which arguments. -/
inductive bt656_event where
  | pixel (p : bt656_ycbcr_t) (x : Nat) (y : Nat)
  | rgb (p : bt656_rgb_t) (x : Nat) (y : Nat)
  | frame
  | line (n : Nat)
deriving DecidableEq, Repr

/-- Recognizer for pixel-sample callback events. -/
def isPixelEvent : bt656_event → Bool
  | .pixel _ _ _ => true
  | _ => false

/-- Recognizer for frame-boundary callback events. -/
def isFrameEvent : bt656_event → Bool
  | .frame => true
  | _ => false

-- ===========================================================================
-- Color converter (bt656_decoder.cpp, bt656_ycbcr_to_rgb)
-- ===========================================================================

/-- Clamp to `[0, 255]` and store into a `uint8_t`, as in the final three
assignments of `bt656_ycbcr_to_rgb`. -/
def clamp255 (v : Int) : Nat :=
  (if v < 0 then 0 else if v > 255 then 255 else v).toNat

/-- `bt656_ycbcr_to_rgb`.  The C code computes
`int r = y + 1.402 * cr;` etc. in `double` arithmetic and converts the
sum to `int` (truncation toward zero).  The `double` literals
`1.402`, `0.344`, `0.714`, `1.772` are modelled by the exact rationals
with denominator 1000, so each channel is a truncated-toward-zero
quotient of integers (`Int.tdiv` is C-style truncating division).  At
inputs with `cb = cr = 128` both chroma offsets are zero, every product
is exactly `0.0` in IEEE double as well, and the model coincides
exactly with the C computation. -/
def bt656_ycbcr_to_rgb (ycbcr : bt656_ycbcr_t) : bt656_rgb_t :=
  let y : Int := (ycbcr.y : Int) - 16
  let cb : Int := (ycbcr.cb : Int) - 128
  let cr : Int := (ycbcr.cr : Int) - 128
  let r : Int := Int.tdiv (1000 * y + 1402 * cr) 1000
  let g : Int := Int.tdiv (1000 * y - 344 * cb - 714 * cr) 1000
  let b : Int := Int.tdiv (1000 * y + 1772 * cb) 1000
  { r := clamp255 r, g := clamp255 g, b := clamp255 b }

-- ===========================================================================
-- Capture interface: circular queue and producer steps (bt656_interface.cpp)
-- ===========================================================================

/-- `bt656_interface_stats_t` from bt656_interface.h (`uint32_t`
counters plus the `uint64_t` timestamp). -/
structure bt656_interface_stats_t where
  interrupts_handled : Nat
  bytes_captured : Nat
  buffer_overflows : Nat
  missed_samples : Nat
  isr_execution_time : Nat
  last_interrupt_time : Nat
deriving DecidableEq, Repr

/-- The part of `bt656_interface_t` relevant to the capture queue: the
backing store (a list of length `buffer_size`), the two cursors, the
full flag, the statistics and the interrupt-enabled flag.
`buffer_size` is the `config.buffer_size` field. -/
structure bt656_interface_t where
  buffer_size : Nat
  data_buffer : List Nat
  buffer_head : Nat
  buffer_tail : Nat
  buffer_full : Bool
  stats : bt656_interface_stats_t
  interrupt_enabled : Bool
deriving DecidableEq, Repr

/-- The buffer state established by `bt656_interface_init`: a zeroed
allocation of `size` bytes, both cursors at 0, full flag clear, all
statistics zero (the structure is `memset` to zero). -/
def bt656_interface_mk (size : Nat) (ie : Bool) : bt656_interface_t :=
  { buffer_size := size
    data_buffer := List.replicate size 0
    buffer_head := 0
    buffer_tail := 0
    buffer_full := false
    stats := ⟨0, 0, 0, 0, 0, 0⟩
    interrupt_enabled := ie }

/-- `add_to_buffer_optimized`: push one byte.  If the queue is full the
overflow counter is incremented and `false` returned; otherwise the byte
is stored at the write cursor, the cursor advances modulo the capacity,
and the full flag is set when the write cursor meets the read cursor. -/
def add_to_buffer_optimized (i : bt656_interface_t) (data : Nat) :
    bt656_interface_t × Bool :=
  if i.buffer_full then
    ({ i with stats :=
        { i.stats with buffer_overflows := (i.stats.buffer_overflows + 1) % 2 ^ 32 } },
     false)
  else
    let head2 := (i.buffer_head + 1) % i.buffer_size
    ({ i with
        data_buffer := i.data_buffer.set i.buffer_head data
        buffer_head := head2
        buffer_full := decide (head2 = i.buffer_tail) },
     true)

/-- The drain loop of `bt656_interface_read_data`, recursing on the
remaining `max_count` budget: while the budget is positive and
`buffer_tail != buffer_head`, emit the byte at the read cursor, advance
the cursor modulo the capacity and clear the full flag. -/
def bt656_interface_read_data_loop (i : bt656_interface_t) :
    Nat → bt656_interface_t × List Nat
  | 0 => (i, [])
  | k + 1 =>
    if i.buffer_tail ≠ i.buffer_head then
      let b := i.data_buffer.getD i.buffer_tail 0
      let i2 := { i with
        buffer_tail := (i.buffer_tail + 1) % i.buffer_size
        buffer_full := false }
      let rest := bt656_interface_read_data_loop i2 k
      (rest.1, b :: rest.2)
    else
      (i, [])

/-- `bt656_interface_read_data`: drain up to `max_count` bytes into the
caller's buffer (here: the returned list; the C return value is its
length). -/
def bt656_interface_read_data (i : bt656_interface_t) (max_count : Nat) :
    bt656_interface_t × List Nat :=
  bt656_interface_read_data_loop i max_count

/-- `bt656_interface_get_available_data`. -/
def bt656_interface_get_available_data (i : bt656_interface_t) : Nat :=
  if i.buffer_full then i.buffer_size
  else if i.buffer_head ≥ i.buffer_tail then i.buffer_head - i.buffer_tail
  else i.buffer_size - i.buffer_tail + i.buffer_head

/-- `bt656_pclk_isr_optimized`: one producer ISR invocation, with the
sampled bus byte passed in (`read_parallel_data_optimized` is a hardware
GPIO read).  The `g_interface` null check is subsumed by passing the
interface explicitly. -/
def bt656_pclk_isr_optimized (i : bt656_interface_t) (data : Nat) :
    bt656_interface_t :=
  if !i.interrupt_enabled then i
  else
    let p := add_to_buffer_optimized i data
    let i2 :=
      if p.2 then
        { p.1 with stats :=
            { p.1.stats with bytes_captured := (p.1.stats.bytes_captured + 1) % 2 ^ 32 } }
      else p.1
    { i2 with stats :=
        { i2.stats with interrupts_handled := (i2.stats.interrupts_handled + 1) % 2 ^ 32 } }

/-- `bt656_interface_poll_data`: one polling invocation.  `pclk_high` is
the sampled clock level, `last_pclk` the value of the C `static`
edge-detection variable, `data` the sampled bus byte.  Only a rising
edge with interrupts disabled captures a byte. -/
def bt656_interface_poll_data (i : bt656_interface_t)
    (pclk_high last_pclk : Bool) (data : Nat) : bt656_interface_t :=
  if i.interrupt_enabled then i
  else if pclk_high && !last_pclk then
    let p := add_to_buffer_optimized i data
    let i2 :=
      if p.2 then
        { p.1 with stats :=
            { p.1.stats with bytes_captured := (p.1.stats.bytes_captured + 1) % 2 ^ 32 } }
      else p.1
    { i2 with stats :=
        { i2.stats with interrupts_handled := (i2.stats.interrupts_handled + 1) % 2 ^ 32 } }
  else i

/-- One producer capture step: an ISR invocation or a polling call. -/
inductive capture_step where
  | isr (data : Nat)
  | poll (pclk_high last_pclk : Bool) (data : Nat)
deriving DecidableEq, Repr

/-- Run a sequence of producer capture steps. -/
def run_capture (i : bt656_interface_t) : List capture_step → bt656_interface_t
  | [] => i
  | s :: rest =>
    match s with
    | .isr d => run_capture (bt656_pclk_isr_optimized i d) rest
    | .poll ph lp d => run_capture (bt656_interface_poll_data i ph lp d) rest

/-- Push a whole list of bytes through `add_to_buffer_optimized`,
discarding the per-push Boolean (as the producer paths do when counting
is not at issue). -/
def push_all (i : bt656_interface_t) : List Nat → bt656_interface_t
  | [] => i
  | b :: rest => push_all (add_to_buffer_optimized i b).1 rest

-- ===========================================================================
-- Protocol decoder (bt656_decoder.cpp)
-- ===========================================================================

/-- `detect_timing_reference`: one step of the FF 00 00 marker state
machine.  Returns the updated state together with the C return value
(`true` exactly when the marker just completed).  The C `default`
branch (reached for `CONTROL_BYTE` and `ACTIVE_VIDEO`) forces `IDLE`. -/
def detect_timing_reference (s : bt656_state_t) (data : Nat) :
    bt656_state_t × Bool :=
  match s with
  | .idle => (if data = 0xFF then .ff else .idle, false)
  | .ff => (if data = 0x00 then .ff00 else .idle, false)
  | .ff00 => if data = 0x00 then (.ff0000, true) else (.idle, false)
  | .ff0000 => (.control_byte, false)
  | .control_byte => (.idle, false)
  | .active_video => (.idle, false)

/-- `extract_sync_signals`: fixed bit positions (6 = field, 5 = vsync,
4 = hsync, 3 = sav), `eav = !sav`. -/
def extract_sync_signals (control_byte : Nat) : bt656_sync_t :=
  { field := control_byte.testBit 6
    vsync := control_byte.testBit 5
    hsync := control_byte.testBit 4
    sav := control_byte.testBit 3
    eav := !control_byte.testBit 3 }

/-- `process_video_data`: the 4:2:2 phase machine.  On the `CR` phase
the completed sample is dispatched: a pixel event if the pixel callback
is registered, then (when RGB conversion is enabled and the RGB callback
is registered) the converted RGB event; `pixels_received` and
`pixel_count` are incremented (as `uint32_t` resp. `uint16_t`) and the
phase returns to `Y1`. -/
def process_video_data (d : bt656_decoder_t) (data : Nat) :
    bt656_decoder_t × List bt656_event :=
  if !d.in_active_video then (d, [])
  else
    match d.phase with
    | .y1 => ({ d with current_pixel := { d.current_pixel with y := data },
                       phase := .cb }, [])
    | .cb => ({ d with current_pixel := { d.current_pixel with cb := data },
                       phase := .y2 }, [])
    | .y2 => ({ d with current_pixel := { d.current_pixel with y := data },
                       phase := .cr }, [])
    | .cr =>
      let px : bt656_ycbcr_t := { d.current_pixel with cr := data }
      let evPix : List bt656_event :=
        if d.pixel_cb then [.pixel px d.pixel_count d.line_count] else []
      let doRgb : Bool := d.config.enable_rgb_conversion && d.rgb_cb
      let rgbv := bt656_ycbcr_to_rgb px
      let evRgb : List bt656_event :=
        if doRgb then [.rgb rgbv d.pixel_count d.line_count] else []
      ({ d with
          current_pixel := px
          current_rgb := if doRgb then rgbv else d.current_rgb
          stats := { d.stats with
            pixels_received := (d.stats.pixels_received + 1) % 2 ^ 32 }
          pixel_count := (d.pixel_count + 1) % 2 ^ 16
          phase := .y1 },
       evPix ++ evRgb)

/-- `handle_sync_signals`: in order, the vsync rising edge (new frame),
the hsync rising edge (new line, with the line callback observing the
pre-increment line number), the SAV/EAV handling, then the new sync
flags are stored.  `now` models `micros()`. -/
def handle_sync_signals (d : bt656_decoder_t) (sync : bt656_sync_t)
    (now : Nat) : bt656_decoder_t × List bt656_event :=
  let pV :=
    if sync.vsync && !d.sync.vsync then
      ({ d with
          frame_started := true
          line_count := 0
          pixel_count := 0
          stats := { d.stats with
            frames_received := (d.stats.frames_received + 1) % 2 ^ 32
            last_frame_time := now } },
       if d.frame_cb then [bt656_event.frame] else [])
    else (d, [])
  let d1 := pV.1
  let pH :=
    if sync.hsync && !d1.sync.hsync then
      ({ d1 with
          line_started := true
          pixel_count := 0
          stats := { d1.stats with
            lines_received := (d1.stats.lines_received + 1) % 2 ^ 32 }
          line_count := (d1.line_count + 1) % 2 ^ 16 },
       if d1.line_cb then [bt656_event.line d1.line_count] else [])
    else (d1, [])
  let d2 := pH.1
  let d3 :=
    if sync.sav then
      { d2 with in_active_video := true, phase := .y1, pixel_count := 0 }
    else
      { d2 with in_active_video := false }
  ({ d3 with sync := sync }, pV.2 ++ pH.2)

/-- `bt656_decoder_reset`: force `IDLE`, first-luma phase, clear the
active-video and started flags, zero the line/pixel counters, zero the
stored sync flags and the current pixel/RGB samples.  Statistics,
configuration and callbacks are not touched. -/
def bt656_decoder_reset (d : bt656_decoder_t) : bt656_decoder_t :=
  { d with
      state := .idle
      phase := .y1
      in_active_video := false
      frame_started := false
      line_started := false
      line_count := 0
      pixel_count := 0
      sync := ⟨false, false, false, false, false⟩
      current_pixel := ⟨0, 0, 0⟩
      current_rgb := ⟨0, 0, 0⟩ }

/-- `bt656_decoder_process_byte`: run the timing-reference detector
(which updates `state`); on marker completion return at once; if the
detector just moved to `CONTROL_BYTE`, parse this byte's sync flags and
return to `IDLE`; otherwise, inside active video, treat the byte as
video data. -/
def bt656_decoder_process_byte (d : bt656_decoder_t) (data : Nat)
    (now : Nat) : bt656_decoder_t × List bt656_event :=
  let p := detect_timing_reference d.state data
  let d1 := { d with state := p.1 }
  if p.2 then (d1, [])
  else if d1.state = .control_byte then
    let q := handle_sync_signals d1 (extract_sync_signals data) now
    ({ q.1 with state := .idle }, q.2)
  else if d1.in_active_video then
    process_video_data d1 data
  else (d1, [])

/-- Feed a list of bytes to the decoder, concatenating the emitted
events in order. -/
def bt656_processBytes (d : bt656_decoder_t) (l : List Nat) (now : Nat) :
    bt656_decoder_t × List bt656_event :=
  match l with
  | [] => (d, [])
  | b :: rest =>
    let p := bt656_decoder_process_byte d b now
    let q := bt656_processBytes p.1 rest now
    (q.1, p.2 ++ q.2)

/-- The decoder state established by `bt656_decoder_init` with the
default (PAL) configuration and no registered callbacks: the structure
is `memset` to zero, the default config filled in, state `IDLE`, phase
`Y1`. -/
def bt656_decoder_mk : bt656_decoder_t :=
  { state := .idle
    phase := .y1
    sync := ⟨false, false, false, false, false⟩
    current_pixel := ⟨0, 0, 0⟩
    current_rgb := ⟨0, 0, 0⟩
    line_count := 0
    pixel_count := 0
    frame_width := 0
    frame_height := 0
    in_active_video := false
    frame_started := false
    line_started := false
    stats := ⟨0, 0, 0, 0, 0, 0, 0⟩
    config := { expected_width := 720
                expected_height := 576
                enable_rgb_conversion := true
                enable_frame_buffer := false
                output_format := 1 }
    pixel_cb := false
    rgb_cb := false
    frame_cb := false
    line_cb := false }

-- ===========================================================================
-- Timing-reference detector runs (for the no-false-detection property)
-- ===========================================================================

/-- Run the marker detector alone over a byte list, returning the final
state and the number of `true` returns (marker completions). -/
def detect_run (s : bt656_state_t) : List Nat → bt656_state_t × Nat
  | [] => (s, 0)
  | b :: rest =>
    let p := detect_timing_reference s b
    let q := detect_run p.1 rest
    (q.1, (if p.2 then 1 else 0) + q.2)

/-- The list of detector states after each byte of the run. -/
def detect_trace (s : bt656_state_t) : List Nat → List bt656_state_t
  | [] => []
  | b :: rest =>
    let p := detect_timing_reference s b
    p.1 :: detect_trace p.1 rest


/-- Fold `process_video_data` over a byte list (the pure video phase
machine, with the detector state carried unchanged). -/
def video_fold (d : bt656_decoder_t) : List Nat → bt656_decoder_t × List bt656_event
  | [] => (d, [])
  | b :: rest =>
    let p := process_video_data d b
    let q := video_fold p.1 rest
    (q.1, p.2 ++ q.2)

/-- A detector run over `l` from state `s` is "safe" when no step
signals a completed marker and no step enters the `CONTROL_BYTE`
state: along such a run `bt656_decoder_process_byte` treats every byte
as (potential) video data. -/
def detect_safe (s : bt656_state_t) : List Nat → Bool
  | [] => true
  | b :: rest =>
    !(detect_timing_reference s b).2 &&
    !(decide ((detect_timing_reference s b).1 = bt656_state_t.control_byte)) &&
    detect_safe (detect_timing_reference s b).1 rest

/-- A decoder as in the end-to-end scenarios: freshly initialized, with
the pixel, frame and line callbacks registered (the RGB callback is left
unregistered). -/
def cb_decoder : bt656_decoder_t :=
  { bt656_decoder_mk with pixel_cb := true, frame_cb := true, line_cb := true }

-- ===========================================================================
-- Helper lemmas
-- ===========================================================================

/-- `process_video_data` never touches the `data_errors` counter. -/
lemma process_video_data_data_errors (d : bt656_decoder_t) (data : Nat) :
    ((process_video_data d data).1).stats.data_errors = d.stats.data_errors := by
  cases h : d.in_active_video <;> cases hp : d.phase <;>
    simp [process_video_data, h, hp]

/-- `handle_sync_signals` never touches the `data_errors` counter. -/
lemma handle_sync_signals_data_errors (d : bt656_decoder_t)
    (sync : bt656_sync_t) (now : Nat) :
    ((handle_sync_signals d sync now).1).stats.data_errors =
      d.stats.data_errors := by
  unfold handle_sync_signals
  dsimp only
  split_ifs <;> rfl

-- ===========================================================================
-- Claim theorems
-- ===========================================================================

/-- C9: `bt656_decoder_reset` forces `IDLE`, clears the active-video
flag, the phase (back to `Y1`), the line/pixel counters and the stored
sync flags, and leaves the statistics (every field), the configuration
and the registered callbacks unchanged. -/
theorem c9_reset_clears_state_preserves_stats (d : bt656_decoder_t) :
    (bt656_decoder_reset d).state = .idle ∧
    (bt656_decoder_reset d).in_active_video = false ∧
    (bt656_decoder_reset d).phase = .y1 ∧
    (bt656_decoder_reset d).line_count = 0 ∧
    (bt656_decoder_reset d).pixel_count = 0 ∧
    (bt656_decoder_reset d).sync = ⟨false, false, false, false, false⟩ ∧
    (bt656_decoder_reset d).stats = d.stats ∧
    (bt656_decoder_reset d).config = d.config ∧
    (bt656_decoder_reset d).pixel_cb = d.pixel_cb ∧
    (bt656_decoder_reset d).rgb_cb = d.rgb_cb ∧
    (bt656_decoder_reset d).frame_cb = d.frame_cb ∧
    (bt656_decoder_reset d).line_cb = d.line_cb := by
  simp [bt656_decoder_reset]

/-- C4 counterexample: white `(y=235, cb=128, cr=128)` converts to
`(219, 219, 219)`, which is not approximately `(255, 255, 255)` (here
"approximately" is read as: each channel within 20 of 255; the actual
distance is 36, so any tolerance below 36 refutes the claim).  The luma
excursion is not rescaled from `[16, 235]` to `[0, 255]` by the code. -/
theorem c4_white_not_near_255 :
    bt656_ycbcr_to_rgb ⟨235, 128, 128⟩ = ⟨219, 219, 219⟩ ∧
    ¬ (255 - (bt656_ycbcr_to_rgb ⟨235, 128, 128⟩).r ≤ 20) := by decide

/-- C4 (amended): BT.601 black `(16, 128, 128)` converts to exactly
`(0, 0, 0)`, and white `(235, 128, 128)` converts to exactly
`(219, 219, 219)` — the code subtracts 16 from luma but does not rescale
the 219-step excursion to full range, so white is 219 per channel after
clamping, not approximately 255. -/
theorem c4_black_and_white_values :
    bt656_ycbcr_to_rgb ⟨16, 128, 128⟩ = ⟨0, 0, 0⟩ ∧
    bt656_ycbcr_to_rgb ⟨235, 128, 128⟩ = ⟨219, 219, 219⟩ := by decide

/-- C1 (code bug): a full queue cannot be drained at all.  After pushing
2 bytes into a capacity-2 queue the full flag is set and the two cursors
coincide, `available()` reports 2 bytes, yet `bt656_interface_read_data`
with `max_count = 1` returns 0 bytes and leaves the state unchanged —
its loop guard `buffer_tail != buffer_head` is false precisely when the
queue is full, contradicting the full-flag design used by
`bt656_interface_get_available_data` and the flag-clearing statement
inside its own loop. -/
theorem c1_full_queue_drain_returns_nothing :
    (push_all (bt656_interface_mk 2 true) [5, 6]).buffer_full = true ∧
    (push_all (bt656_interface_mk 2 true) [5, 6]).buffer_head =
      (push_all (bt656_interface_mk 2 true) [5, 6]).buffer_tail ∧
    bt656_interface_get_available_data
      (push_all (bt656_interface_mk 2 true) [5, 6]) = 2 ∧
    bt656_interface_read_data (push_all (bt656_interface_mk 2 true) [5, 6]) 1 =
      (push_all (bt656_interface_mk 2 true) [5, 6], []) := by decide

/-- C3 counterexample: a fresh decoder (active-video flag clear, detector
idle) fed the pixel-phase byte `0x42` records no data error: the
`data_errors` counter stays 0 instead of being incremented to 1. -/
theorem c3_byte_outside_active_video_no_error :
    bt656_decoder_mk.in_active_video = false ∧
    bt656_decoder_mk.stats.data_errors = 0 ∧
    ((bt656_decoder_process_byte bt656_decoder_mk 0x42 0).1).stats.data_errors = 0 ∧
    ¬ ((bt656_decoder_process_byte bt656_decoder_mk 0x42 0).1).stats.data_errors = 1 := by
  decide

/-- C3 (amended): pixel-phase data arriving with no active-video region
open is discarded silently — `bt656_decoder_process_byte` never modifies
the `data_errors` counter, for any decoder state and any byte. -/
theorem c3_process_byte_preserves_data_errors (d : bt656_decoder_t)
    (data now : Nat) :
    ((bt656_decoder_process_byte d data now).1).stats.data_errors =
      d.stats.data_errors := by
  unfold bt656_decoder_process_byte
  dsimp only
  split_ifs
  · rfl
  · simp [handle_sync_signals_data_errors]
  · simp [process_video_data_data_errors]
  · rfl

/-- C7 counterexample: from a fresh decoder (IDLE, stored vsync and
hsync clear), feeding `FF 00 00 0x30` — a control byte with the vsync
bit set (and the hsync bit also set) — leaves `line_count = 1`, not 0:
the hsync rising edge increments the line counter after the vsync edge
reset it, so the claimed "resets line_count to 0" fails. -/
theorem c7_vsync_with_hsync_line_count_one :
    ((bt656_processBytes cb_decoder [255, 0, 0, 0x30] 0).1).line_count = 1 ∧
    ¬ ((bt656_processBytes cb_decoder [255, 0, 0, 0x30] 0).1).line_count = 0 := by
  decide

/-- C5 counterexample: with the four "video" bytes `FF 00 00 00`, the
third byte completes a timing-reference marker instead of being consumed
as video data, so the pixel callback never fires and `pixels_received`
stays 0 (the claim demands exactly one invocation and an increment by
1).  The decoder here has just processed a timing reference and the
sav-set control byte `0x08`. -/
theorem c5_marker_shaped_data_no_pixel :
    ((bt656_processBytes
        ((bt656_processBytes cb_decoder [255, 0, 0, 0x08] 0).1)
        [255, 0, 0, 0] 0).2.filter isPixelEvent = []) ∧
    ((bt656_processBytes
        ((bt656_processBytes cb_decoder [255, 0, 0, 0x08] 0).1)
        [255, 0, 0, 0] 0).1).stats.pixels_received = 0 := by decide

/-- C2 counterexample: in the end-to-end scenario (marker+`0x10`,
marker+`0x08` (sav), four data bytes `11 22 33 44`, marker+`0x20`
(vsync)), the unique pixel callback fires at coordinates `(0, 1)`, not
`(0, 0)`: the hsync edge of the first control byte already advanced the
line counter past the value 0 it reported to the line callback. -/
theorem c2_pixel_at_line_one_not_zero :
    ((bt656_processBytes cb_decoder
        [255, 0, 0, 0x10, 255, 0, 0, 0x08, 0x11, 0x22, 0x33, 0x44,
         255, 0, 0, 0x20] 0).2.filter isPixelEvent =
      [.pixel ⟨0x33, 0x22, 0x44⟩ 0 1]) ∧
    ¬ (bt656_event.pixel ⟨0x33, 0x22, 0x44⟩ 0 1 =
        .pixel ⟨0x33, 0x22, 0x44⟩ 0 0) := by decide

-- ===========================================================================
-- C8: queue overflow behaviour
-- ===========================================================================

/-- Setting the element just past a prefix rewrites the head of the
remainder. -/
lemma list_set_at_prefix_length (l1 l2 : List Nat) (b : Nat) :
    (l1 ++ l2).set l1.length b = l1 ++ l2.set 0 b := by
  induction l1 with
  | nil => simp
  | cons x t ih => simp [List.set, ih]

/-- Pushing distributes over list append. -/
lemma push_all_append (i : bt656_interface_t) (l1 l2 : List Nat) :
    push_all i (l1 ++ l2) = push_all (push_all i l1) l2 := by
  induction l1 generalizing i with
  | nil => simp [push_all]
  | cons b t ih => simp [push_all, ih]

/-- State of the queue after pushing at most `C` bytes into a fresh
capacity-`C` queue: the bytes sit in push order at the front of the
backing store, the write cursor is the count modulo `C`, the read cursor
is still 0, and the full flag is set exactly when the count reached the
capacity.  No overflow has been counted. -/
lemma push_all_prefix_state (C : Nat) (hC : 0 < C) (ie : Bool)
    (bs : List Nat) (hlen : bs.length ≤ C) :
    push_all (bt656_interface_mk C ie) bs =
      { buffer_size := C
        data_buffer := bs ++ List.replicate (C - bs.length) 0
        buffer_head := bs.length % C
        buffer_tail := 0
        buffer_full := decide (bs.length = C)
        stats := ⟨0, 0, 0, 0, 0, 0⟩
        interrupt_enabled := ie } := by
  induction bs using List.reverseRecOn with
  | nil =>
    simp only [push_all, bt656_interface_mk, List.length_nil, Nat.zero_mod,
      Nat.sub_zero, List.nil_append]
    have h0 : ¬ (0 = C) := by omega
    simp [h0]
  | append_singleton bs b ih =>
    have hbs : bs.length ≤ C := by
      simp only [List.length_append, List.length_singleton] at hlen; omega
    have hlt : bs.length < C := by
      simp only [List.length_append, List.length_singleton] at hlen; omega
    rw [push_all_append, ih hbs]
    have hnotfull : ¬ (bs.length = C) := by omega
    have hmod : bs.length % C = bs.length := Nat.mod_eq_of_lt hlt
    simp only [push_all, add_to_buffer_optimized, hmod, decide_eq_true_eq,
      hnotfull, decide_False, Bool.false_eq_true, if_false]
    have hrep : List.replicate (C - bs.length) (0 : Nat) =
        0 :: List.replicate (C - (bs.length + 1)) 0 := by
      have : C - bs.length = (C - (bs.length + 1)) + 1 := by omega
      rw [this, List.replicate_succ]
    have hset : (bs ++ List.replicate (C - bs.length) 0).set bs.length b =
        (bs ++ [b]) ++ List.replicate (C - (bs.length + 1)) 0 := by
      rw [list_set_at_prefix_length, hrep]
      simp [List.set]
    have hfull : ((bs.length + 1) % C = 0) ↔ ((bs ++ [b]).length = C) := by
      simp only [List.length_append, List.length_singleton]
      constructor
      · intro h
        rcases Nat.lt_or_ge (bs.length + 1) C with hlt2 | hge
        · rw [Nat.mod_eq_of_lt hlt2] at h; omega
        · omega
      · intro h; rw [h]; exact Nat.mod_self C
    simp only [hset]
    congr 1
    · simp
    · rw [List.length_append, List.length_singleton]
    · exact decide_eq_decide.mpr hfull

/-- C8: starting from an empty queue of capacity `C ≥ 1`, pushing
`C + 1` bytes with no intervening drain leaves exactly `C` bytes stored
(`available()` reports `C`), preserves the oldest `C` pushed bytes in
push order as the entire backing store, increments `buffer_overflows`
exactly once (from 0 to 1, for the single rejected byte), and the
rejected push leaves the backing store, write cursor, read cursor and
full flag unchanged and returns `false`. -/
theorem c8_overflow_single_rejection (C : Nat) (hC : 0 < C) (ie : Bool)
    (bs : List Nat) (hlen : bs.length = C) (b : Nat) :
    (add_to_buffer_optimized (push_all (bt656_interface_mk C ie) bs) b).2 = false ∧
    (push_all (bt656_interface_mk C ie) bs).data_buffer = bs ∧
    (push_all (bt656_interface_mk C ie) bs).stats.buffer_overflows = 0 ∧
    ((add_to_buffer_optimized (push_all (bt656_interface_mk C ie) bs) b).1).data_buffer =
      (push_all (bt656_interface_mk C ie) bs).data_buffer ∧
    ((add_to_buffer_optimized (push_all (bt656_interface_mk C ie) bs) b).1).buffer_head =
      (push_all (bt656_interface_mk C ie) bs).buffer_head ∧
    ((add_to_buffer_optimized (push_all (bt656_interface_mk C ie) bs) b).1).buffer_tail =
      (push_all (bt656_interface_mk C ie) bs).buffer_tail ∧
    ((add_to_buffer_optimized (push_all (bt656_interface_mk C ie) bs) b).1).buffer_full =
      (push_all (bt656_interface_mk C ie) bs).buffer_full ∧
    ((add_to_buffer_optimized (push_all (bt656_interface_mk C ie) bs) b).1).stats.buffer_overflows = 1 ∧
    bt656_interface_get_available_data
      ((add_to_buffer_optimized (push_all (bt656_interface_mk C ie) bs) b).1) = C := by
  have hstate := push_all_prefix_state C hC ie bs (le_of_eq hlen)
  rw [hstate]
  simp [add_to_buffer_optimized, bt656_interface_get_available_data, hlen]

/-- C8 witness: capacity 2, pushes `[5, 6]` then the rejected `7`. -/
theorem c8_overflow_single_rejection_witness :
    (0 < 2 ∧ ([5, 6] : List Nat).length = 2) ∧
    ((add_to_buffer_optimized (push_all (bt656_interface_mk 2 true) [5, 6]) 7).2 = false ∧
     (push_all (bt656_interface_mk 2 true) [5, 6]).data_buffer = [5, 6] ∧
     (push_all (bt656_interface_mk 2 true) [5, 6]).stats.buffer_overflows = 0 ∧
     ((add_to_buffer_optimized (push_all (bt656_interface_mk 2 true) [5, 6]) 7).1).data_buffer =
       (push_all (bt656_interface_mk 2 true) [5, 6]).data_buffer ∧
     ((add_to_buffer_optimized (push_all (bt656_interface_mk 2 true) [5, 6]) 7).1).buffer_head =
       (push_all (bt656_interface_mk 2 true) [5, 6]).buffer_head ∧
     ((add_to_buffer_optimized (push_all (bt656_interface_mk 2 true) [5, 6]) 7).1).buffer_tail =
       (push_all (bt656_interface_mk 2 true) [5, 6]).buffer_tail ∧
     ((add_to_buffer_optimized (push_all (bt656_interface_mk 2 true) [5, 6]) 7).1).buffer_full =
       (push_all (bt656_interface_mk 2 true) [5, 6]).buffer_full ∧
     ((add_to_buffer_optimized (push_all (bt656_interface_mk 2 true) [5, 6]) 7).1).stats.buffer_overflows = 1 ∧
     bt656_interface_get_available_data
       ((add_to_buffer_optimized (push_all (bt656_interface_mk 2 true) [5, 6]) 7).1) = 2) :=
  ⟨⟨by decide, by decide⟩,
   c8_overflow_single_rejection 2 (by decide) true [5, 6] (by decide) 7⟩

-- ===========================================================================
-- C10: capture accounting invariant
-- ===========================================================================

/-- One ISR invocation bumps `interrupts_handled` by one and exactly one
of `bytes_captured` / `buffer_overflows` by one (or nothing at all when
interrupts are disabled), preserving the accounting identity below the
`uint32_t` wrap. -/
lemma bt656_pclk_isr_optimized_counts (i : bt656_interface_t) (d : Nat)
    (hinv : i.stats.interrupts_handled =
      i.stats.bytes_captured + i.stats.buffer_overflows)
    (hlt : i.stats.interrupts_handled + 1 < 2 ^ 32) :
    (bt656_pclk_isr_optimized i d).stats.interrupts_handled =
      (bt656_pclk_isr_optimized i d).stats.bytes_captured +
        (bt656_pclk_isr_optimized i d).stats.buffer_overflows ∧
    (bt656_pclk_isr_optimized i d).stats.interrupts_handled ≤
      i.stats.interrupts_handled + 1 := by
  have hW : (2 : Nat) ^ 32 = 4294967296 := by norm_num
  rw [hW] at hlt
  unfold bt656_pclk_isr_optimized add_to_buffer_optimized
  cases hie : i.interrupt_enabled <;> cases hfull : i.buffer_full <;>
    simp [hie, hfull, hW] <;> omega

/-- The polling path obeys the same per-step accounting as the ISR. -/
lemma bt656_interface_poll_data_counts (i : bt656_interface_t)
    (ph lp : Bool) (d : Nat)
    (hinv : i.stats.interrupts_handled =
      i.stats.bytes_captured + i.stats.buffer_overflows)
    (hlt : i.stats.interrupts_handled + 1 < 2 ^ 32) :
    (bt656_interface_poll_data i ph lp d).stats.interrupts_handled =
      (bt656_interface_poll_data i ph lp d).stats.bytes_captured +
        (bt656_interface_poll_data i ph lp d).stats.buffer_overflows ∧
    (bt656_interface_poll_data i ph lp d).stats.interrupts_handled ≤
      i.stats.interrupts_handled + 1 := by
  have hW : (2 : Nat) ^ 32 = 4294967296 := by norm_num
  rw [hW] at hlt
  unfold bt656_interface_poll_data add_to_buffer_optimized
  cases hie : i.interrupt_enabled <;> cases hph : ph <;> cases hlp : lp <;>
    cases hfull : i.buffer_full <;> simp [hie, hfull, hW] <;> omega

/-- Running any sequence of producer capture steps preserves
`interrupts_handled = bytes_captured + buffer_overflows`, as long as the
step count keeps the counters below the `uint32_t` wrap; the interrupt
counter grows by at most one per step. -/
lemma run_capture_invariant (l : List capture_step) :
    ∀ i : bt656_interface_t,
    i.stats.interrupts_handled =
      i.stats.bytes_captured + i.stats.buffer_overflows →
    i.stats.interrupts_handled + l.length < 2 ^ 32 →
    (run_capture i l).stats.interrupts_handled =
      (run_capture i l).stats.bytes_captured +
        (run_capture i l).stats.buffer_overflows ∧
    (run_capture i l).stats.interrupts_handled ≤
      i.stats.interrupts_handled + l.length := by
  induction l with
  | nil => intro i hinv hlt; simpa [run_capture] using hinv
  | cons s rest ih =>
    intro i hinv hlt
    cases s with
    | isr d =>
      have hstep := bt656_pclk_isr_optimized_counts i d hinv
        (by simp only [List.length_cons] at hlt; omega)
      have hrec := ih (bt656_pclk_isr_optimized i d) hstep.1
        (by simp only [List.length_cons] at hlt; omega)
      refine ⟨by simpa [run_capture] using hrec.1, ?_⟩
      have := hrec.2
      simp only [run_capture, List.length_cons]
      omega
    | poll ph lp d =>
      have hstep := bt656_interface_poll_data_counts i ph lp d hinv
        (by simp only [List.length_cons] at hlt; omega)
      have hrec := ih (bt656_interface_poll_data i ph lp d) hstep.1
        (by simp only [List.length_cons] at hlt; omega)
      refine ⟨by simpa [run_capture] using hrec.1, ?_⟩
      have := hrec.2
      simp only [run_capture, List.length_cons]
      omega

/-- C10: from a freshly initialized interface (all capture counters
zero), after any sequence of producer capture steps (ISR invocations or
polling calls) short enough not to wrap the `uint32_t` counters,
`interrupts_handled` equals `bytes_captured + buffer_overflows`: every
sampled byte is counted either as captured (queue not full) or as an
overflow, never both and never neither. -/
theorem c10_capture_accounting (C : Nat) (ie : Bool)
    (l : List capture_step) (hlen : l.length < 2 ^ 32) :
    (run_capture (bt656_interface_mk C ie) l).stats.interrupts_handled =
      (run_capture (bt656_interface_mk C ie) l).stats.bytes_captured +
        (run_capture (bt656_interface_mk C ie) l).stats.buffer_overflows :=
  (run_capture_invariant l (bt656_interface_mk C ie)
    (by simp [bt656_interface_mk])
    (by simp only [bt656_interface_mk]; omega)).1

/-- C10 witness: capacity 1, three ISR samples — one captured byte and
two overflows, three interrupts. -/
theorem c10_capture_accounting_witness :
    ([capture_step.isr 9, .isr 7, .isr 3].length < 2 ^ 32) ∧
    (run_capture (bt656_interface_mk 1 true)
        [capture_step.isr 9, .isr 7, .isr 3]).stats.interrupts_handled =
      (run_capture (bt656_interface_mk 1 true)
          [capture_step.isr 9, .isr 7, .isr 3]).stats.bytes_captured +
        (run_capture (bt656_interface_mk 1 true)
            [capture_step.isr 9, .isr 7, .isr 3]).stats.buffer_overflows :=
  ⟨by norm_num, c10_capture_accounting 1 true _ (by norm_num)⟩


-- ===========================================================================
-- C6: no false marker detection
-- ===========================================================================

/-- Final state of a detector run splits over list append. -/
lemma detect_run_append_fst (l1 l2 : List Nat) (s : bt656_state_t) :
    (detect_run s (l1 ++ l2)).1 = (detect_run (detect_run s l1).1 l2).1 := by
  induction l1 generalizing s with
  | nil => simp [detect_run]
  | cons b t ih =>
    simp only [List.cons_append, detect_run, List.append_eq]
    rw [ih]

/-- Detection count of a detector run splits over list append. -/
lemma detect_run_append_snd (l1 l2 : List Nat) (s : bt656_state_t) :
    (detect_run s (l1 ++ l2)).2 =
      (detect_run s l1).2 + (detect_run (detect_run s l1).1 l2).2 := by
  induction l1 generalizing s with
  | nil => simp [detect_run]
  | cons b t ih =>
    simp only [List.cons_append, detect_run, List.append_eq]
    rw [ih]
    omega

/-- Detector traces split over list append. -/
lemma detect_trace_append (l1 l2 : List Nat) (s : bt656_state_t) :
    detect_trace s (l1 ++ l2) =
      detect_trace s l1 ++ detect_trace (detect_run s l1).1 l2 := by
  induction l1 generalizing s with
  | nil => simp [detect_trace, detect_run]
  | cons b t ih =>
    simp only [List.cons_append, detect_trace, detect_run, List.append_eq]
    rw [ih]

/-- Invariant of a detector run that starts in `IDLE` on a byte list not
containing the contiguous marker `FF 00 00`: no detection fires, the
`FF0000` and `CONTROL_BYTE` states are never visited, and the final
state remembers exactly the marker prefix consumed so far (`FF` after a
trailing `FF`, `FF00` after a trailing `FF 00`). -/
lemma detect_idle_invariant (l : List Nat)
    (hni : ¬ [255, 0, 0] <:+: l) :
    (detect_run .idle l).2 = 0 ∧
    bt656_state_t.ff0000 ∉ detect_trace .idle l ∧
    bt656_state_t.control_byte ∉ detect_trace .idle l ∧
    ((detect_run .idle l).1 = .ff → ∃ l1, l = l1 ++ [255]) ∧
    ((detect_run .idle l).1 = .ff00 → ∃ l1, l = l1 ++ [255, 0]) ∧
    (detect_run .idle l).1 ≠ .ff0000 ∧
    (detect_run .idle l).1 ≠ .control_byte ∧
    (detect_run .idle l).1 ≠ .active_video := by
  induction l using List.reverseRecOn with
  | nil => simp [detect_run, detect_trace]
  | append_singleton l b ih =>
    have hni' : ¬ [255, 0, 0] <:+: l := fun h =>
      hni (h.trans (List.prefix_append l [b]).isInfix)
    obtain ⟨hcnt, hno4, hnoc, hff, hff00, hne4, hnec, hnea⟩ := ih hni'
    rcases hsl : (detect_run bt656_state_t.idle l).1 with _ | _ | _ | _ | _ | _
    all_goals try (exact absurd hsl (by assumption))
    · -- state idle after l
      by_cases hb : b = 255
      · subst hb
        refine ⟨?_, ?_, ?_, ?_, ?_, ?_, ?_, ?_⟩
        · rw [detect_run_append_snd, hcnt, hsl]
          simp [detect_run, detect_timing_reference]
        · rw [detect_trace_append, hsl]
          simp [detect_trace, detect_timing_reference, hno4]
        · rw [detect_trace_append, hsl]
          simp [detect_trace, detect_timing_reference, hnoc]
        · intro _; exact ⟨l, rfl⟩
        · rw [detect_run_append_fst, hsl]
          simp [detect_run, detect_timing_reference]
        · rw [detect_run_append_fst, hsl]
          simp [detect_run, detect_timing_reference]
        · rw [detect_run_append_fst, hsl]
          simp [detect_run, detect_timing_reference]
        · rw [detect_run_append_fst, hsl]
          simp [detect_run, detect_timing_reference]
      · refine ⟨?_, ?_, ?_, ?_, ?_, ?_, ?_, ?_⟩
        · rw [detect_run_append_snd, hcnt, hsl]
          simp [detect_run, detect_timing_reference, hb]
        · rw [detect_trace_append, hsl]
          simp [detect_trace, detect_timing_reference, hb, hno4]
        · rw [detect_trace_append, hsl]
          simp [detect_trace, detect_timing_reference, hb, hnoc]
        · rw [detect_run_append_fst, hsl]
          simp [detect_run, detect_timing_reference, hb]
        · rw [detect_run_append_fst, hsl]
          simp [detect_run, detect_timing_reference, hb]
        · rw [detect_run_append_fst, hsl]
          simp [detect_run, detect_timing_reference, hb]
        · rw [detect_run_append_fst, hsl]
          simp [detect_run, detect_timing_reference, hb]
        · rw [detect_run_append_fst, hsl]
          simp [detect_run, detect_timing_reference, hb]
    · -- state ff after l: l ends with FF
      obtain ⟨l1, hl1⟩ := hff hsl
      by_cases hb : b = 0
      · subst hb
        refine ⟨?_, ?_, ?_, ?_, ?_, ?_, ?_, ?_⟩
        · rw [detect_run_append_snd, hcnt, hsl]
          simp [detect_run, detect_timing_reference]
        · rw [detect_trace_append, hsl]
          simp [detect_trace, detect_timing_reference, hno4]
        · rw [detect_trace_append, hsl]
          simp [detect_trace, detect_timing_reference, hnoc]
        · rw [detect_run_append_fst, hsl]
          simp [detect_run, detect_timing_reference]
        · intro _
          exact ⟨l1, by rw [hl1]; simp⟩
        · rw [detect_run_append_fst, hsl]
          simp [detect_run, detect_timing_reference]
        · rw [detect_run_append_fst, hsl]
          simp [detect_run, detect_timing_reference]
        · rw [detect_run_append_fst, hsl]
          simp [detect_run, detect_timing_reference]
      · refine ⟨?_, ?_, ?_, ?_, ?_, ?_, ?_, ?_⟩
        · rw [detect_run_append_snd, hcnt, hsl]
          simp [detect_run, detect_timing_reference, hb]
        · rw [detect_trace_append, hsl]
          simp [detect_trace, detect_timing_reference, hb, hno4]
        · rw [detect_trace_append, hsl]
          simp [detect_trace, detect_timing_reference, hb, hnoc]
        · rw [detect_run_append_fst, hsl]
          simp [detect_run, detect_timing_reference, hb]
        · rw [detect_run_append_fst, hsl]
          simp [detect_run, detect_timing_reference, hb]
        · rw [detect_run_append_fst, hsl]
          simp [detect_run, detect_timing_reference, hb]
        · rw [detect_run_append_fst, hsl]
          simp [detect_run, detect_timing_reference, hb]
        · rw [detect_run_append_fst, hsl]
          simp [detect_run, detect_timing_reference, hb]
    · -- state ff00 after l: l ends with FF 00; a zero would complete the marker
      obtain ⟨l1, hl1⟩ := hff00 hsl
      by_cases hb : b = 0
      · exfalso
        apply hni
        subst hb
        rw [hl1]
        have heq : l1 ++ [255, 0] ++ [0] = l1 ++ [255, 0, 0] := by simp
        rw [heq]
        exact (List.suffix_append l1 [255, 0, 0]).isInfix
      · refine ⟨?_, ?_, ?_, ?_, ?_, ?_, ?_, ?_⟩
        · rw [detect_run_append_snd, hcnt, hsl]
          simp [detect_run, detect_timing_reference, hb]
        · rw [detect_trace_append, hsl]
          simp [detect_trace, detect_timing_reference, hb, hno4]
        · rw [detect_trace_append, hsl]
          simp [detect_trace, detect_timing_reference, hb, hnoc]
        · rw [detect_run_append_fst, hsl]
          simp [detect_run, detect_timing_reference, hb]
        · rw [detect_run_append_fst, hsl]
          simp [detect_run, detect_timing_reference, hb]
        · rw [detect_run_append_fst, hsl]
          simp [detect_run, detect_timing_reference, hb]
        · rw [detect_run_append_fst, hsl]
          simp [detect_run, detect_timing_reference, hb]
        · rw [detect_run_append_fst, hsl]
          simp [detect_run, detect_timing_reference, hb]

/-- C6: for every byte sequence with no contiguous `FF 00 00` inside, a
detector run from `IDLE` never signals a completed marker (zero `true`
returns) and never reaches the `FF0000` state; moreover the overlapping
false-start sequence `FF FF FF 00 00` yields exactly one detection, not
two. -/
theorem c6_no_false_marker_detection :
    (∀ l : List Nat, ¬ [255, 0, 0] <:+: l →
      (detect_run .idle l).2 = 0 ∧
      bt656_state_t.ff0000 ∉ detect_trace .idle l) ∧
    (detect_run .idle [255, 255, 255, 0, 0]).2 = 1 := by
  refine ⟨fun l h => ⟨(detect_idle_invariant l h).1,
    (detect_idle_invariant l h).2.1⟩, by decide⟩

/-- C6 witness: the sequence `01 FF 02` contains no `FF 00 00`, yields
no detection and never reaches `FF0000`. -/
theorem c6_no_false_marker_detection_witness :
    ¬ [255, 0, 0] <:+: [1, 255, 2] ∧
    ((detect_run .idle [1, 255, 2]).2 = 0 ∧
      bt656_state_t.ff0000 ∉ detect_trace .idle [1, 255, 2]) :=
  ⟨by decide, c6_no_false_marker_detection.1 [1, 255, 2] (by decide)⟩

-- ===========================================================================
-- Machinery for the single-pixel and end-to-end scenarios (C2, C5, C7)
-- ===========================================================================

/-- Decoder runs split over list append (final state). -/
lemma processBytes_append_fst (l1 l2 : List Nat) (d : bt656_decoder_t)
    (now : Nat) :
    (bt656_processBytes d (l1 ++ l2) now).1 =
      (bt656_processBytes (bt656_processBytes d l1 now).1 l2 now).1 := by
  induction l1 generalizing d with
  | nil => simp [bt656_processBytes]
  | cons b t ih =>
    simp only [List.cons_append, bt656_processBytes, List.append_eq]
    rw [ih]

/-- Decoder runs split over list append (emitted events). -/
lemma processBytes_append_snd (l1 l2 : List Nat) (d : bt656_decoder_t)
    (now : Nat) :
    (bt656_processBytes d (l1 ++ l2) now).2 =
      (bt656_processBytes d l1 now).2 ++
        (bt656_processBytes (bt656_processBytes d l1 now).1 l2 now).2 := by
  induction l1 generalizing d with
  | nil => simp [bt656_processBytes]
  | cons b t ih =>
    simp only [List.cons_append, bt656_processBytes, List.append_eq]
    rw [ih, List.append_assoc]

/-- `process_video_data` ignores and preserves the detector state
field. -/
lemma process_video_data_set_state (d : bt656_decoder_t)
    (s : bt656_state_t) (data : Nat) :
    process_video_data { d with state := s } data =
      ({ (process_video_data d data).1 with state := s },
       (process_video_data d data).2) := by
  cases h : d.in_active_video <;> cases hp : d.phase <;>
    simp [process_video_data, h, hp]

/-- `process_video_data` leaves the active-video flag (and the detector
state) unchanged. -/
lemma process_video_data_in_active (d : bt656_decoder_t) (data : Nat) :
    ((process_video_data d data).1).in_active_video = d.in_active_video ∧
    ((process_video_data d data).1).state = d.state := by
  cases h : d.in_active_video <;> cases hp : d.phase <;>
    simp [process_video_data, h, hp]

/-- `video_fold` ignores and preserves the detector state field. -/
lemma video_fold_set_state (l : List Nat) (d : bt656_decoder_t)
    (s : bt656_state_t) :
    video_fold { d with state := s } l =
      ({ (video_fold d l).1 with state := s }, (video_fold d l).2) := by
  induction l generalizing d with
  | nil => simp [video_fold]
  | cons b t ih =>
    simp only [video_fold, process_video_data_set_state]
    rw [ih]

/-- While the decoder is inside active video and the detector run over
`l` is safe (no marker completion, no control-byte state),
`bt656_decoder_process_byte` over `l` is exactly the video phase
machine, with the final detector state carried alongside. -/
lemma processBytes_of_safe (l : List Nat) :
    ∀ (d : bt656_decoder_t) (now : Nat),
    d.in_active_video = true → detect_safe d.state l = true →
    bt656_processBytes d l now =
      ({ (video_fold d l).1 with state := (detect_run d.state l).1 },
       (video_fold d l).2) := by
  induction l with
  | nil =>
    intro d now hact _
    simp [bt656_processBytes, video_fold, detect_run]
  | cons b t ih =>
    intro d now hact hsafe
    simp only [detect_safe, Bool.and_eq_true, Bool.not_eq_true',
      decide_eq_false_iff_not] at hsafe
    obtain ⟨⟨hfound, hnc⟩, hrest⟩ := hsafe
    have hstep : bt656_decoder_process_byte d b now =
        ({ (process_video_data d b).1
            with state := (detect_timing_reference d.state b).1 },
         (process_video_data d b).2) := by
      unfold bt656_decoder_process_byte
      simp only [hfound, Bool.false_eq_true, if_false]
      rw [if_neg (by simpa using hnc)]
      rw [if_pos (by simpa using hact)]
      exact process_video_data_set_state d _ b
    simp only [bt656_processBytes, hstep]
    rw [ih ({ (process_video_data d b).1
          with state := (detect_timing_reference d.state b).1 }) now
      (((process_video_data_in_active d b).1).trans hact) hrest]
    rw [video_fold_set_state]
    simp only [video_fold, detect_run]

/-- Four video bytes starting at phase `Y1` inside active video: the
phases `Y1 CB Y2 CR` are traversed once, the pixel event (when the
pixel callback is registered) and the optional RGB event fire with the
sample `(y = b3, cb = b2, cr = b4)` at the current coordinates, and
`pixels_received` / `pixel_count` are incremented once. -/
lemma video_fold_quad (d : bt656_decoder_t) (b1 b2 b3 b4 : Nat)
    (hact : d.in_active_video = true) (hph : d.phase = .y1) :
    video_fold d [b1, b2, b3, b4] =
      ({ d with
          current_pixel := ⟨b3, b2, b4⟩
          current_rgb :=
            if d.config.enable_rgb_conversion && d.rgb_cb then
              bt656_ycbcr_to_rgb ⟨b3, b2, b4⟩
            else d.current_rgb
          stats := { d.stats with
            pixels_received := (d.stats.pixels_received + 1) % 2 ^ 32 }
          pixel_count := (d.pixel_count + 1) % 2 ^ 16
          phase := .y1 },
       (if d.pixel_cb then
          [bt656_event.pixel ⟨b3, b2, b4⟩ d.pixel_count d.line_count]
        else []) ++
       (if d.config.enable_rgb_conversion && d.rgb_cb then
          [bt656_event.rgb (bt656_ycbcr_to_rgb ⟨b3, b2, b4⟩)
            d.pixel_count d.line_count]
        else [])) := by
  simp [video_fold, process_video_data, hact, hph]

/-- Four data bytes that embed no completing `FF 00 00` marker tail are
safe for a detector run from `IDLE`. -/
lemma detect_safe_quad (d1 d2 d3 d4 : Nat)
    (hm1 : ¬ (d1 = 255 ∧ d2 = 0 ∧ d3 = 0))
    (hm2 : ¬ (d2 = 255 ∧ d3 = 0 ∧ d4 = 0)) :
    detect_safe .idle [d1, d2, d3, d4] = true := by
  by_cases h1 : d1 = 255
  · subst h1
    by_cases h2 : d2 = 0
    · subst h2
      by_cases h3 : d3 = 0
      · exact absurd ⟨rfl, rfl, h3⟩ hm1
      · by_cases h4 : d4 = 255 <;>
          simp [detect_safe, detect_timing_reference, h3, h4]
    · by_cases h3 : d3 = 255
      · subst h3
        by_cases h4 : d4 = 0 <;>
          simp [detect_safe, detect_timing_reference, h2, h4]
      · by_cases h4 : d4 = 255 <;>
          simp [detect_safe, detect_timing_reference, h2, h3, h4]
  · by_cases h2 : d2 = 255
    · subst h2
      by_cases h3 : d3 = 0
      · subst h3
        by_cases h4 : d4 = 0
        · exact absurd ⟨rfl, rfl, h4⟩ hm2
        · simp [detect_safe, detect_timing_reference, h1, h4]
      · by_cases h4 : d4 = 255 <;>
          simp [detect_safe, detect_timing_reference, h1, h3, h4]
    · by_cases h3 : d3 = 255
      · subst h3
        by_cases h4 : d4 = 0 <;>
          simp [detect_safe, detect_timing_reference, h1, h2, h4]
      · by_cases h4 : d4 = 255 <;>
          simp [detect_safe, detect_timing_reference, h1, h2, h3, h4]

/-- A byte list free of `0xFF` keeps the detector in `IDLE` and is
safe. -/
lemma detect_safe_of_non255 (l : List Nat) (h : ∀ b ∈ l, b ≠ 255) :
    detect_safe .idle l = true ∧ (detect_run .idle l).1 = .idle := by
  induction l with
  | nil => simp [detect_safe, detect_run]
  | cons b t ih =>
    have hb : b ≠ 255 := h b (List.mem_cons_self b t)
    have ht := ih (fun x hx => h x (List.mem_cons_of_mem b hx))
    simp [detect_safe, detect_run, detect_timing_reference, hb, ht.1, ht.2]

/-- `handle_sync_signals` emits no pixel events and preserves the
callback registrations, the configuration and `pixels_received`. -/
lemma handle_sync_signals_frame_fields (d : bt656_decoder_t)
    (sync : bt656_sync_t) (now : Nat) :
    ((handle_sync_signals d sync now).2.filter isPixelEvent = []) ∧
    ((handle_sync_signals d sync now).1).pixel_cb = d.pixel_cb ∧
    ((handle_sync_signals d sync now).1).rgb_cb = d.rgb_cb ∧
    ((handle_sync_signals d sync now).1).config = d.config ∧
    ((handle_sync_signals d sync now).1).stats.pixels_received =
      d.stats.pixels_received := by
  unfold handle_sync_signals
  dsimp only
  split_ifs <;> simp [isPixelEvent]

/-- `handle_sync_signals` on a control byte with `sav` set opens the
active-video region, resets the phase to `Y1` and zeroes the pixel
counter. -/
lemma handle_sync_signals_sav (d : bt656_decoder_t) (sync : bt656_sync_t)
    (now : Nat) (hs : sync.sav = true) :
    ((handle_sync_signals d sync now).1).in_active_video = true ∧
    ((handle_sync_signals d sync now).1).phase = .y1 ∧
    ((handle_sync_signals d sync now).1).pixel_count = 0 := by
  unfold handle_sync_signals
  dsimp only
  split_ifs <;> simp [hs]

/-- Processing the marker `FF 00 00` from `IDLE` outside active video
only walks the detector to `FF0000`: nothing else changes and no event
fires. -/
lemma marker_prefix_inactive (S : bt656_decoder_t) (now : Nat)
    (hst : S.state = .idle) (hact : S.in_active_video = false) :
    bt656_processBytes S [255, 0, 0] now = ({ S with state := .ff0000 }, []) := by
  simp [bt656_processBytes, bt656_decoder_process_byte,
    detect_timing_reference, hst, hact]

/-- Processing a full timing reference `FF 00 00` plus a control byte
with `sav` set, from `IDLE` outside active video: the decoder returns to
`IDLE`, the active-video region is open at phase `Y1` with pixel
counter 0, the callback registrations / configuration /
`pixels_received` are untouched, and no pixel event fires. -/
lemma marker_sav_state (S : bt656_decoder_t) (ctrl now : Nat)
    (hst : S.state = .idle) (hact : S.in_active_video = false)
    (hsav : ctrl.testBit 3 = true) :
    ((bt656_processBytes S [255, 0, 0, ctrl] now).1).state = .idle ∧
    ((bt656_processBytes S [255, 0, 0, ctrl] now).1).in_active_video = true ∧
    ((bt656_processBytes S [255, 0, 0, ctrl] now).1).phase = .y1 ∧
    ((bt656_processBytes S [255, 0, 0, ctrl] now).1).pixel_count = 0 ∧
    ((bt656_processBytes S [255, 0, 0, ctrl] now).1).pixel_cb = S.pixel_cb ∧
    ((bt656_processBytes S [255, 0, 0, ctrl] now).1).rgb_cb = S.rgb_cb ∧
    ((bt656_processBytes S [255, 0, 0, ctrl] now).1).config = S.config ∧
    ((bt656_processBytes S [255, 0, 0, ctrl] now).1).stats.pixels_received =
      S.stats.pixels_received ∧
    (bt656_processBytes S [255, 0, 0, ctrl] now).2.filter isPixelEvent = [] := by
  have hstep : bt656_processBytes S [255, 0, 0, ctrl] now =
      ({ (handle_sync_signals { S with state := .control_byte }
            (extract_sync_signals ctrl) now).1 with state := .idle },
       (handle_sync_signals { S with state := .control_byte }
            (extract_sync_signals ctrl) now).2) := by
    simp [bt656_processBytes, bt656_decoder_process_byte,
      detect_timing_reference, hst, hact]
  have hsav2 : (extract_sync_signals ctrl).sav = true := by
    simpa [extract_sync_signals] using hsav
  have hsv := handle_sync_signals_sav { S with state := .control_byte }
    (extract_sync_signals ctrl) now hsav2
  have hff := handle_sync_signals_frame_fields { S with state := .control_byte }
    (extract_sync_signals ctrl) now
  rw [hstep]
  refine ⟨rfl, ?_, ?_, ?_, ?_, ?_, ?_, ?_, ?_⟩
  · simpa using hsv.1
  · simpa using hsv.2.1
  · simpa using hsv.2.2
  · simpa using hff.2.1
  · simpa using hff.2.2.1
  · simpa using hff.2.2.2.1
  · simpa using hff.2.2.2.2
  · simpa using hff.1

/-- C7 (amended): from a decoder in `IDLE` outside active video with a
registered frame callback, feeding `FF 00 00` plus a control byte whose
vsync bit is set and whose hsync and sav bits are clear: when the stored
vsync flag is clear, the run zeroes `line_count` and `pixel_count`,
increments `frames_received` by exactly 1 and fires the frame-boundary
callback exactly once; when the stored vsync flag is already set, those
counters are unchanged and no callback fires at all. -/
theorem c7_vsync_rising_fires_once (S : bt656_decoder_t) (ctrl now : Nat)
    (hst : S.state = .idle) (hact : S.in_active_video = false)
    (hfcb : S.frame_cb = true)
    (hv : ctrl.testBit 5 = true) (hh : ctrl.testBit 4 = false)
    (hs : ctrl.testBit 3 = false) (hc : ctrl < 256)
    (hnw : S.stats.frames_received + 1 < 2 ^ 32) :
    (S.sync.vsync = false →
      ((bt656_processBytes S [255, 0, 0, ctrl] now).1).line_count = 0 ∧
      ((bt656_processBytes S [255, 0, 0, ctrl] now).1).pixel_count = 0 ∧
      ((bt656_processBytes S [255, 0, 0, ctrl] now).1).stats.frames_received =
        S.stats.frames_received + 1 ∧
      (bt656_processBytes S [255, 0, 0, ctrl] now).2 = [bt656_event.frame]) ∧
    (S.sync.vsync = true →
      ((bt656_processBytes S [255, 0, 0, ctrl] now).1).line_count = S.line_count ∧
      ((bt656_processBytes S [255, 0, 0, ctrl] now).1).pixel_count = S.pixel_count ∧
      ((bt656_processBytes S [255, 0, 0, ctrl] now).1).stats.frames_received =
        S.stats.frames_received ∧
      (bt656_processBytes S [255, 0, 0, ctrl] now).2 = []) := by
  have hstep : bt656_processBytes S [255, 0, 0, ctrl] now =
      ({ (handle_sync_signals { S with state := .control_byte }
            (extract_sync_signals ctrl) now).1 with state := .idle },
       (handle_sync_signals { S with state := .control_byte }
            (extract_sync_signals ctrl) now).2) := by
    simp [bt656_processBytes, bt656_decoder_process_byte,
      detect_timing_reference, hst, hact]
  have hex : extract_sync_signals ctrl =
      ⟨ctrl.testBit 6, true, false, false, true⟩ := by
    simp [extract_sync_signals, hv, hh, hs]
  rw [hstep, hex]
  have hnw4 : S.stats.frames_received + 1 < 4294967296 := by simpa using hnw
  constructor
  · intro hvs
    unfold handle_sync_signals
    dsimp only
    simp [hvs, hfcb, Nat.mod_eq_of_lt hnw4]
  · intro hvs
    unfold handle_sync_signals
    dsimp only
    simp [hvs]

/-- C7 witness: a fresh decoder with callbacks, control byte `0x20`. -/
theorem c7_vsync_rising_fires_once_witness :
    (cb_decoder.state = .idle ∧ cb_decoder.in_active_video = false ∧
     cb_decoder.frame_cb = true ∧ (0x20 : Nat).testBit 5 = true ∧
     (0x20 : Nat).testBit 4 = false ∧ (0x20 : Nat).testBit 3 = false ∧
     (0x20 : Nat) < 256 ∧
     cb_decoder.stats.frames_received + 1 < 2 ^ 32) ∧
    ((cb_decoder.sync.vsync = false →
      ((bt656_processBytes cb_decoder [255, 0, 0, 0x20] 7).1).line_count = 0 ∧
      ((bt656_processBytes cb_decoder [255, 0, 0, 0x20] 7).1).pixel_count = 0 ∧
      ((bt656_processBytes cb_decoder [255, 0, 0, 0x20] 7).1).stats.frames_received =
        cb_decoder.stats.frames_received + 1 ∧
      (bt656_processBytes cb_decoder [255, 0, 0, 0x20] 7).2 = [bt656_event.frame]) ∧
    (cb_decoder.sync.vsync = true →
      ((bt656_processBytes cb_decoder [255, 0, 0, 0x20] 7).1).line_count = cb_decoder.line_count ∧
      ((bt656_processBytes cb_decoder [255, 0, 0, 0x20] 7).1).pixel_count = cb_decoder.pixel_count ∧
      ((bt656_processBytes cb_decoder [255, 0, 0, 0x20] 7).1).stats.frames_received =
        cb_decoder.stats.frames_received ∧
      (bt656_processBytes cb_decoder [255, 0, 0, 0x20] 7).2 = [])) :=
  ⟨⟨rfl, rfl, rfl, by decide, by decide, by decide, by decide, by decide⟩,
   c7_vsync_rising_fires_once cb_decoder 0x20 7 rfl rfl rfl (by decide)
     (by decide) (by decide) (by decide) (by decide)⟩

/-- C5 (amended): from any decoder state in `IDLE` outside active video
with a registered pixel callback, processing a timing reference plus a
control byte with `sav` set and then four data bytes `Y1 Cb Y2 Cr` that
do not themselves complete a timing-reference marker invokes the
pixel-sample callback exactly once, with sample `(y = Y2, cb = Cb,
cr = Cr)` at coordinates `(0, current_line)` (the decoder's line counter
after the control byte), and `pixels_received` increments by exactly
1. -/
theorem c5_sav_quad_pixel_once (S : bt656_decoder_t)
    (ctrl now d1 d2 d3 d4 : Nat)
    (hst : S.state = .idle) (hact : S.in_active_video = false)
    (hcb : S.pixel_cb = true) (hsav : ctrl.testBit 3 = true)
    (hc : ctrl < 256) (h1 : d1 < 256) (h2 : d2 < 256) (h3 : d3 < 256)
    (h4 : d4 < 256)
    (hm1 : ¬ (d1 = 255 ∧ d2 = 0 ∧ d3 = 0))
    (hm2 : ¬ (d2 = 255 ∧ d3 = 0 ∧ d4 = 0))
    (hnw : S.stats.pixels_received + 1 < 2 ^ 32) :
    ((bt656_processBytes ((bt656_processBytes S [255, 0, 0, ctrl] now).1)
        [d1, d2, d3, d4] now).2.filter isPixelEvent =
      [bt656_event.pixel ⟨d3, d2, d4⟩ 0
        ((bt656_processBytes S [255, 0, 0, ctrl] now).1).line_count]) ∧
    ((bt656_processBytes ((bt656_processBytes S [255, 0, 0, ctrl] now).1)
        [d1, d2, d3, d4] now).1).stats.pixels_received =
      S.stats.pixels_received + 1 := by
  obtain ⟨hS4st, hS4act, hS4ph, hS4pc, hS4pcb, hS4rgb, hS4cfg, hS4pix, hS4ev⟩ :=
    marker_sav_state S ctrl now hst hact hsav
  have hsafe := detect_safe_quad d1 d2 d3 d4 hm1 hm2
  have hdec := processBytes_of_safe [d1, d2, d3, d4]
    ((bt656_processBytes S [255, 0, 0, ctrl] now).1) now hS4act
    (by rw [hS4st]; exact hsafe)
  rw [hdec]
  rw [video_fold_quad _ d1 d2 d3 d4 hS4act hS4ph]
  have hnw4 : S.stats.pixels_received + 1 < 4294967296 := by simpa using hnw
  constructor
  · rw [List.filter_append]
    rw [hS4pcb, hcb]
    cases hr : (((bt656_processBytes S [255, 0, 0, ctrl] now).1).config.enable_rgb_conversion &&
        ((bt656_processBytes S [255, 0, 0, ctrl] now).1).rgb_cb) <;>
      simp [hr, isPixelEvent, hS4pc]
  · simp [hS4pix, Nat.mod_eq_of_lt hnw4]

/-- C5 witness: fresh decoder with callbacks, control `0x08`, data bytes
`10 20 30 40`. -/
theorem c5_sav_quad_pixel_once_witness :
    (cb_decoder.state = .idle ∧ cb_decoder.in_active_video = false ∧
     cb_decoder.pixel_cb = true ∧ (0x08 : Nat).testBit 3 = true ∧
     (0x08 : Nat) < 256 ∧ (10 : Nat) < 256 ∧ (20 : Nat) < 256 ∧
     (30 : Nat) < 256 ∧ (40 : Nat) < 256 ∧
     ¬ ((10 : Nat) = 255 ∧ (20 : Nat) = 0 ∧ (30 : Nat) = 0) ∧
     ¬ ((20 : Nat) = 255 ∧ (30 : Nat) = 0 ∧ (40 : Nat) = 0) ∧
     cb_decoder.stats.pixels_received + 1 < 2 ^ 32) ∧
    (((bt656_processBytes ((bt656_processBytes cb_decoder [255, 0, 0, 0x08] 0).1)
        [10, 20, 30, 40] 0).2.filter isPixelEvent =
      [bt656_event.pixel ⟨30, 20, 40⟩ 0
        ((bt656_processBytes cb_decoder [255, 0, 0, 0x08] 0).1).line_count]) ∧
    ((bt656_processBytes ((bt656_processBytes cb_decoder [255, 0, 0, 0x08] 0).1)
        [10, 20, 30, 40] 0).1).stats.pixels_received =
      cb_decoder.stats.pixels_received + 1) :=
  ⟨⟨rfl, rfl, rfl, by decide, by decide, by decide, by decide, by decide,
    by decide, by decide, by decide, by decide⟩,
   c5_sav_quad_pixel_once cb_decoder 0x08 0 10 20 30 40 rfl rfl rfl
     (by decide) (by decide) (by decide) (by decide) (by decide) (by decide)
     (by decide) (by decide) (by decide)⟩

/-- C2 (amended): the end-to-end scenario — marker + control `0x10`
(hsync rising only), marker + control `0x08` (sav set), four video data
bytes (none `0xFF`) forming one pixel, marker + control `0x20` (vsync
rising, sav clear) — produces exactly one line-boundary callback with
line number 0, exactly one pixel callback with sample
`(y = Y2, cb = Cb, cr = Cr)` at coordinates `(0, 1)` (not `(0, 0)`: the
hsync edge already advanced the line counter), exactly one
frame-boundary callback, and final statistics `lines_received = 1`,
`frames_received = 1`, `pixels_received = 1`. -/
theorem c2_endtoend_events_and_stats (now d1 d2 d3 d4 : Nat)
    (h1 : d1 < 256) (h2 : d2 < 256) (h3 : d3 < 256) (h4 : d4 < 256)
    (hn1 : d1 ≠ 255) (hn2 : d2 ≠ 255) (hn3 : d3 ≠ 255) (hn4 : d4 ≠ 255) :
    ((bt656_processBytes cb_decoder
        [255, 0, 0, 16, 255, 0, 0, 8, d1, d2, d3, d4, 255, 0, 0, 32] now).2 =
      [bt656_event.line 0, bt656_event.pixel ⟨d3, d2, d4⟩ 0 1,
        bt656_event.frame]) ∧
    ((bt656_processBytes cb_decoder
        [255, 0, 0, 16, 255, 0, 0, 8, d1, d2, d3, d4, 255, 0, 0, 32]
        now).1).stats.lines_received = 1 ∧
    ((bt656_processBytes cb_decoder
        [255, 0, 0, 16, 255, 0, 0, 8, d1, d2, d3, d4, 255, 0, 0, 32]
        now).1).stats.frames_received = 1 ∧
    ((bt656_processBytes cb_decoder
        [255, 0, 0, 16, 255, 0, 0, 8, d1, d2, d3, d4, 255, 0, 0, 32]
        now).1).stats.pixels_received = 1 := by
  have hnl : ∀ b ∈ ([d1, d2, d3, d4] : List Nat), b ≠ 255 := by
    intro b hb
    simp only [List.mem_cons, List.not_mem_nil, or_false] at hb
    rcases hb with rfl | rfl | rfl | rfl <;> assumption
  obtain ⟨hsafe, hidle⟩ := detect_safe_of_non255 [d1, d2, d3, d4] hnl
  have e : ([255, 0, 0, 16, 255, 0, 0, 8, d1, d2, d3, d4, 255, 0, 0, 32] :
      List Nat) =
      [255, 0, 0, 16, 255, 0, 0, 8] ++ ([d1, d2, d3, d4] ++ [255, 0, 0, 32]) :=
    rfl
  have hpre : bt656_processBytes cb_decoder [255, 0, 0, 16, 255, 0, 0, 8] now =
      (⟨.idle, .y1, ⟨false, false, false, true, false⟩, ⟨0, 0, 0⟩, ⟨0, 0, 0⟩,
        1, 0, 0, 0, true, false, true, ⟨0, 1, 0, 0, 0, 0, 0⟩,
        ⟨720, 576, true, false, 1⟩, true, false, true, true⟩,
       [bt656_event.line 0]) := rfl
  have hmid := processBytes_of_safe [d1, d2, d3, d4]
    (⟨.idle, .y1, ⟨false, false, false, true, false⟩, ⟨0, 0, 0⟩, ⟨0, 0, 0⟩,
      1, 0, 0, 0, true, false, true, ⟨0, 1, 0, 0, 0, 0, 0⟩,
      ⟨720, 576, true, false, 1⟩, true, false, true, true⟩ : bt656_decoder_t)
    now rfl hsafe
  have hquad := video_fold_quad
    (⟨.idle, .y1, ⟨false, false, false, true, false⟩, ⟨0, 0, 0⟩, ⟨0, 0, 0⟩,
      1, 0, 0, 0, true, false, true, ⟨0, 1, 0, 0, 0, 0, 0⟩,
      ⟨720, 576, true, false, 1⟩, true, false, true, true⟩ : bt656_decoder_t)
    d1 d2 d3 d4 rfl rfl
  have hex32 : extract_sync_signals 32 = ⟨false, true, false, false, true⟩ := by
    decide
  rw [e, processBytes_append_snd, processBytes_append_fst, hpre]
  rw [processBytes_append_snd, processBytes_append_fst, hmid, hquad]
  simp [bt656_processBytes, bt656_decoder_process_byte,
    detect_timing_reference, process_video_data, handle_sync_signals,
    hex32, hidle]

/-- C2 witness: the concrete data bytes `11 22 33 44`. -/
theorem c2_endtoend_events_and_stats_witness :
    ((17 : Nat) < 256 ∧ (34 : Nat) < 256 ∧ (51 : Nat) < 256 ∧
     (68 : Nat) < 256 ∧ (17 : Nat) ≠ 255 ∧ (34 : Nat) ≠ 255 ∧
     (51 : Nat) ≠ 255 ∧ (68 : Nat) ≠ 255) ∧
    (((bt656_processBytes cb_decoder
        [255, 0, 0, 16, 255, 0, 0, 8, 17, 34, 51, 68, 255, 0, 0, 32] 0).2 =
      [bt656_event.line 0, bt656_event.pixel ⟨51, 34, 68⟩ 0 1,
        bt656_event.frame]) ∧
    ((bt656_processBytes cb_decoder
        [255, 0, 0, 16, 255, 0, 0, 8, 17, 34, 51, 68, 255, 0, 0, 32]
        0).1).stats.lines_received = 1 ∧
    ((bt656_processBytes cb_decoder
        [255, 0, 0, 16, 255, 0, 0, 8, 17, 34, 51, 68, 255, 0, 0, 32]
        0).1).stats.frames_received = 1 ∧
    ((bt656_processBytes cb_decoder
        [255, 0, 0, 16, 255, 0, 0, 8, 17, 34, 51, 68, 255, 0, 0, 32]
        0).1).stats.pixels_received = 1) :=
  ⟨⟨by decide, by decide, by decide, by decide, by decide, by decide,
    by decide, by decide⟩,
   c2_endtoend_events_and_stats 0 17 34 51 68 (by decide) (by decide)
     (by decide) (by decide) (by decide) (by decide) (by decide) (by decide)⟩
